import Mathlib

/-!
Shallow embedding of `src/cardDetectionArduinoSoft/src/main.cpp`, the
firmware of an inserter card-detection safety interlock.

Modelling conventions:

* Machine integers: the sketch's `int` configuration and sensor values are
  modelled as `Int` (Arduino `String.toInt` may return negative values, and
  all guards in the sketch are signed comparisons well inside 32-bit range).
  `unsigned long` millisecond timestamps are modelled as the ideal monotonic
  `Nat` value of `millis()`; the sketch's unsigned subtraction
  `currentMillis - lastX` equals `(now - last) % 2^32` for ideal times with
  `last ≤ now`, which is how `elapsedMs` is defined.
* The exponential-moving-average filter (lines 83-90) is float arithmetic and
  is outside the embedding: each tick takes the conditioned integer reading
  `sensorValue` (the sketch's `(int)filteredValue`) as an input.  Likewise
  `resetSystem`'s reseeding of `filteredValue` from a fresh sample is a
  side effect on that external filter state and carries no information the
  embedded state needs.
* Serial output is modelled as a list of `Event`s emitted per tick, in the
  order the sketch prints them.  Inbound serial is modelled as at most one
  parsed command per tick (`Serial.readStringUntil` consumes one line); the
  string dispatch of `processCommand` (mutually exclusive `startsWith`
  guards) is represented by the inductive `Cmd`.
* Digital levels are `Bool` with `true = HIGH`, `false = LOW`; the envelope
  input is active LOW (`isEnvelopePresent = (envelopeState == LOW)`).
-/

namespace CardDetection

/-- Wraparound-safe elapsed time: the value of the sketch's
`currentMillis - lastX` on 32-bit unsigned timestamps, for ideal monotonic
`Nat` times with `last ≤ now`. -/
def elapsedMs (now last : Nat) : Nat :=
  (now - last) % 4294967296

/-- `SystemState` enum of the sketch (line 36). -/
inductive SystemState where
  | STATE_IDLE
  | STATE_MEASURING
  | STATE_FAULT
deriving DecidableEq, Repr

/-- The runtime-mutable configuration globals (lines 16-20). -/
structure Config where
  CFG_FLOOR_VALUE : Int
  CFG_CARD_THRESHOLD : Int
  CFG_CARD_UPPER_THRESHOLD : Int
  CFG_REVERSE_SENSOR : Bool
  CFG_SYSTEM_OVERRIDE : Bool
deriving DecidableEq, Repr

/-- Boot defaults of the configuration globals (lines 16-20). -/
def bootConfig : Config :=
  { CFG_FLOOR_VALUE := 100
    CFG_CARD_THRESHOLD := 150
    CFG_CARD_UPPER_THRESHOLD := 800
    CFG_REVERSE_SENSOR := false
    CFG_SYSTEM_OVERRIDE := false }

/-- Constant `WATCHDOG_TIMEOUT` (line 21). -/
def WATCHDOG_TIMEOUT : Nat := 2000

/-- Constant `DEBOUNCE_DELAY` (line 30). -/
def DEBOUNCE_DELAY : Nat := 10

/-- Constant `TELEMETRY_INTERVAL` (line 50). -/
def TELEMETRY_INTERVAL : Nat := 100

/-- The mutable global state of the sketch (conditioning filter excluded,
see module comment).  `enableOut` is the level driven on `PIN_ENABLE_OUT`
(`true = HIGH =` machine enabled). -/
structure Sys where
  cfg : Config
  envelopeState : Bool
  lastFlickerableState : Bool
  lastDebounceTime : Nat
  currentState : SystemState
  lastTelemetryTime : Nat
  lastPingReceived : Nat
  maxPeakInWindow : Int
  machineStopActive : Bool
  enableOut : Bool
deriving DecidableEq, Repr

/-- State after `setup()` (lines 52-75) at boot time 0, with the envelope
input idle at its pulled-up HIGH level. -/
def bootSys : Sys :=
  { cfg := bootConfig
    envelopeState := true
    lastFlickerableState := true
    lastDebounceTime := 0
    currentState := .STATE_IDLE
    lastTelemetryTime := 0
    lastPingReceived := 0
    maxPeakInWindow := 0
    machineStopActive := false
    enableOut := true }

/-- One serial line emitted by the sketch. -/
inductive Event where
  | evtPass (peak : Int)
  | evtPassOverride (peak : Int)
  | errEmptyEnvelope (peak : Int)
  | errDoubleCard (peak : Int)
  | errWatchdogTimeout
  | errSensorOutOfRange
  | msgResumed
  | msgThresholdSet (v : Int)
  | msgUpperThresholdSet (v : Int)
  | msgFloorSet (v : Int)
  | msgReverseSet (enabled : Bool)
  | msgOverrideSet (enabled : Bool)
  | telemetry (sensor : Int) (present : Bool) (stop : Bool)
deriving DecidableEq, Repr

/-- One parsed inbound command line (the `startsWith` dispatch of
`processCommand`, lines 249-308; the guards are mutually exclusive).
`unknown` covers every line matching no guard. -/
inductive Cmd where
  | ping
  | resume
  | setThr (n : Int)
  | setThrUpper (n : Int)
  | setFloor (n : Int)
  | setReverse (n : Int)
  | setOverride (n : Int)
  | unknown
deriving DecidableEq, Repr

/-- `triggerStop` (lines 227-232): latch the stop, force `STATE_FAULT`,
drive the enable output LOW and emit the reason. -/
def triggerStop (reason : Event) (s : Sys) : Sys × List Event :=
  ({ s with machineStopActive := true
            currentState := .STATE_FAULT
            enableOut := false },
   [reason])

/-- `resetSystem` (lines 234-244): clear the stop, return to `STATE_IDLE`,
drive the enable output HIGH (filter reseeding is outside the embedding). -/
def resetSystem (s : Sys) : Sys × List Event :=
  ({ s with machineStopActive := false
            currentState := .STATE_IDLE
            enableOut := true },
   [.msgResumed])

/-- `validateResult` (lines 191-225), classifying `maxPeakInWindow`. -/
def validateResult (s : Sys) : Sys × List Event :=
  if s.maxPeakInWindow ≥ s.cfg.CFG_CARD_THRESHOLD ∧
     s.maxPeakInWindow ≤ s.cfg.CFG_CARD_UPPER_THRESHOLD then
    (s, [.evtPass s.maxPeakInWindow])
  else if s.maxPeakInWindow < s.cfg.CFG_CARD_THRESHOLD then
    if s.cfg.CFG_SYSTEM_OVERRIDE then
      (s, [.evtPassOverride s.maxPeakInWindow])
    else
      ({ s with machineStopActive := true
                currentState := .STATE_FAULT
                enableOut := false },
       [.errEmptyEnvelope s.maxPeakInWindow])
  else
    if s.cfg.CFG_SYSTEM_OVERRIDE then
      (s, [.evtPassOverride s.maxPeakInWindow])
    else
      ({ s with machineStopActive := true
                currentState := .STATE_FAULT
                enableOut := false },
       [.errDoubleCard s.maxPeakInWindow])

/-- The verdict vocabulary of the validation engine. -/
inductive Verdict where
  | Pass
  | FailEmpty
  | FailDouble
deriving DecidableEq, Repr

/-- The branch `validateResult` takes for a given peak: its first guard is
the Pass band, its `else if` the empty-envelope fail, its final `else` the
double-card fail (lines 196, 200, 212). -/
def validateVerdict (cfg : Config) (peak : Int) : Verdict :=
  if peak ≥ cfg.CFG_CARD_THRESHOLD ∧ peak ≤ cfg.CFG_CARD_UPPER_THRESHOLD then
    .Pass
  else if peak < cfg.CFG_CARD_THRESHOLD then
    .FailEmpty
  else
    .FailDouble

/-- `processCommand` (lines 249-308).  `now` is the `millis()` value read
when handling `PING` (line 252); within one tick it is the tick's time. -/
def processCommand (cmd : Cmd) (now : Nat) (s : Sys) : Sys × List Event :=
  match cmd with
  | .ping => ({ s with lastPingReceived := now }, [])
  | .resume => resetSystem s
  | .setThr n =>
      if n > 0 ∧ n ≤ 1023 then
        ({ s with cfg := { s.cfg with CFG_CARD_THRESHOLD := n } },
         [.msgThresholdSet n])
      else (s, [])
  | .setThrUpper n =>
      if n > 0 ∧ n ≤ 1023 then
        ({ s with cfg := { s.cfg with CFG_CARD_UPPER_THRESHOLD := n } },
         [.msgUpperThresholdSet n])
      else (s, [])
  | .setFloor n =>
      if n ≥ 0 ∧ n ≤ 1023 then
        ({ s with cfg := { s.cfg with CFG_FLOOR_VALUE := n } },
         [.msgFloorSet n])
      else (s, [])
  | .setReverse n =>
      ({ s with cfg := { s.cfg with CFG_REVERSE_SENSOR := n = 1 } },
       [.msgReverseSet (n = 1)])
  | .setOverride n =>
      ({ s with cfg := { s.cfg with CFG_SYSTEM_OVERRIDE := n = 1 } },
       [.msgOverrideSet (n = 1)])
  | .unknown => (s, [])

/-- Loop section 2.A (lines 96-101): the host-connection watchdog. -/
def watchdogCheck (now : Nat) (s : Sys) : Sys × List Event :=
  if elapsedMs now s.lastPingReceived > WATCHDOG_TIMEOUT then
    if ¬s.machineStopActive then triggerStop .errWatchdogTimeout s
    else (s, [])
  else (s, [])

/-- Loop section 2.B (lines 103-108): the absolute sensor-range check. -/
def rangeCheck (sensorValue : Int) (s : Sys) : Sys × List Event :=
  if sensorValue < 50 ∨ sensorValue > 1000 then
    if ¬s.machineStopActive then triggerStop .errSensorOutOfRange s
    else (s, [])
  else (s, [])

/-- Loop section 2 (lines 95-109): both safety checks, skipped entirely when
`CFG_SYSTEM_OVERRIDE` is set. -/
def safetyChecks (now : Nat) (sensorValue : Int) (s : Sys) : Sys × List Event :=
  if ¬s.cfg.CFG_SYSTEM_OVERRIDE then
    let w := watchdogCheck now s
    let r := rangeCheck sensorValue w.1
    (r.1, w.2 ++ r.2)
  else (s, [])

/-- The debounce stage of the loop (lines 116-131): `reading` is the raw
`digitalRead(PIN_ENVELOPE)` level of this tick. -/
def debounceStep (now : Nat) (reading : Bool) (s : Sys) : Sys :=
  let s1 :=
    if reading ≠ s.lastFlickerableState then
      { s with lastDebounceTime := now, lastFlickerableState := reading }
    else s
  if elapsedMs now s1.lastDebounceTime > DEBOUNCE_DELAY then
    if reading ≠ s1.envelopeState then { s1 with envelopeState := reading }
    else s1
  else s1

/-- Loop section 3 after debouncing (lines 133-160): the detection state
machine, acting on the debounced presence `isEnvelopePresent`. -/
def stateMachineStep (sensorValue : Int) (s : Sys) : Sys × List Event :=
  let isEnvelopePresent := s.envelopeState = false
  match s.currentState with
  | .STATE_IDLE =>
      if isEnvelopePresent then
        ({ s with currentState := .STATE_MEASURING, maxPeakInWindow := 0 }, [])
      else (s, [])
  | .STATE_MEASURING =>
      let s1 :=
        if sensorValue > s.maxPeakInWindow then
          { s with maxPeakInWindow := sensorValue }
        else s
      if ¬isEnvelopePresent then
        let v := validateResult s1
        ({ v.1 with currentState := .STATE_IDLE }, v.2)
      else (s1, [])
  | .STATE_FAULT => (s, [])

/-- Loop section 5 (lines 174-184): periodic telemetry. -/
def telemetryStep (now : Nat) (sensorValue : Int) (s : Sys) : Sys × List Event :=
  if elapsedMs now s.lastTelemetryTime ≥ TELEMETRY_INTERVAL then
    ({ s with lastTelemetryTime := now },
     [.telemetry sensorValue (s.envelopeState = false) s.machineStopActive])
  else (s, [])

/-- The inputs one `loop()` iteration consumes: the tick time `millis()`,
the conditioned sensor reading, the raw envelope level, and the pending
serial line if one is available. -/
structure TickInput where
  now : Nat
  sensorValue : Int
  reading : Bool
  cmd : Option Cmd
deriving DecidableEq, Repr

/-- Loop section 4 (lines 165-169): handle the pending serial line, if
any. -/
def commandStage (c : Option Cmd) (now : Nat) (s : Sys) : Sys × List Event :=
  match c with
  | some cc => processCommand cc now s
  | none => (s, [])

/-- One iteration of `loop()` (lines 77-185): safety checks, debounce,
detection state machine, command handling, telemetry, in the sketch's
order. -/
def tick (i : TickInput) (s : Sys) : Sys × List Event :=
  let a := safetyChecks i.now i.sensorValue s
  let s2 := debounceStep i.now i.reading a.1
  let b := stateMachineStep i.sensorValue s2
  let c := commandStage i.cmd i.now b.1
  let d := telemetryStep i.now i.sensorValue c.1
  (d.1, a.2 ++ b.2 ++ c.2 ++ d.2)

/-- Run a sequence of loop iterations, collecting all emitted events. -/
def runTicks (inputs : List TickInput) (s : Sys) : Sys × List Event :=
  match inputs with
  | [] => (s, [])
  | i :: rest =>
      let a := tick i s
      let b := runTicks rest a.1
      (b.1, a.2 ++ b.2)

/-- Run a sequence of timed commands through `processCommand` alone. -/
def runCmds (cmds : List (Nat × Cmd)) (s : Sys) : Sys :=
  match cmds with
  | [] => s
  | (t, c) :: rest => runCmds rest (processCommand c t s).1

/-- Run the debounce stage alone over a timed raw-reading trace. -/
def runDebounce (tr : List (Nat × Bool)) (s : Sys) : Sys :=
  match tr with
  | [] => s
  | (t, r) :: rest => runDebounce rest (debounceStep t r s)

/-- Both thresholds individually within the sensor's representable range,
the bound `SET_THR` and `SET_THR_UPPER` actually enforce (lines 266, 276). -/
def thresholdsInRange (s : Sys) : Prop :=
  0 < s.cfg.CFG_CARD_THRESHOLD ∧ s.cfg.CFG_CARD_THRESHOLD ≤ 1023 ∧
  0 < s.cfg.CFG_CARD_UPPER_THRESHOLD ∧ s.cfg.CFG_CARD_UPPER_THRESHOLD ≤ 1023

instance (s : Sys) : Decidable (thresholdsInRange s) := by
  unfold thresholdsInRange; infer_instance

/-- Replace the configured floor value, leaving all else unchanged. -/
def withFloor (f : Int) (s : Sys) : Sys :=
  { s with cfg := { s.cfg with CFG_FLOOR_VALUE := f } }

/-- Normalize away the configured floor value (observation for the
floor-noninterference claim). -/
def eraseFloor (s : Sys) : Sys := withFloor 0 s

/-- Is this event the `SET_FLOOR` confirmation message? -/
def isFloorMsg : Event → Bool
  | .msgFloorSet _ => true
  | _ => false

/-- Event stream with `SET_FLOOR` confirmations removed. -/
def obsEvents (es : List Event) : List Event :=
  es.filter (fun e => ¬ isFloorMsg e)

/-- Is this (optional) inbound command absent or a `SET_FLOOR`? -/
def isFloorCmd : Option Cmd → Bool
  | none => true
  | some (.setFloor _) => true
  | some _ => false

/-- Commands that may differ between two floor-equivalent runs: equal, or
both runs only issue (possibly different, possibly no) `SET_FLOOR` lines. -/
def cmdEquiv (c1 c2 : Option Cmd) : Prop :=
  c1 = c2 ∨ (isFloorCmd c1 = true ∧ isFloorCmd c2 = true)

instance (c1 c2 : Option Cmd) : Decidable (cmdEquiv c1 c2) := by
  unfold cmdEquiv; infer_instance

/-- Tick inputs that agree except possibly in `SET_FLOOR` commands. -/
def inputEquiv (i1 i2 : TickInput) : Prop :=
  i1.now = i2.now ∧ i1.sensorValue = i2.sensorValue ∧
  i1.reading = i2.reading ∧ cmdEquiv i1.cmd i2.cmd

instance (i1 i2 : TickInput) : Decidable (inputEquiv i1 i2) := by
  unfold inputEquiv; infer_instance

/-! ## Theorems -/

/-- C2: validation is a total function of the captured peak and the
configuration, with inclusive dual-threshold bounds.  Under the intended
configuration invariant `cardThresholdLow ≤ cardThresholdHigh`: a peak in
`[low, high]` (both bounds included) is classified Pass and `validateResult`
reports `EVT:PASS` with the peak; a peak strictly below `low` is classified
FailEmpty; a peak strictly above `high` is classified FailDouble.  The three
iff characterizations make the cases mutually exclusive and exhaustive, so
exactly one verdict is produced. -/
theorem C2_validation_total_inclusive (cfg : Config) (peak : Int)
    (h : cfg.CFG_CARD_THRESHOLD ≤ cfg.CFG_CARD_UPPER_THRESHOLD) :
    (validateVerdict cfg peak = .Pass ↔
       cfg.CFG_CARD_THRESHOLD ≤ peak ∧ peak ≤ cfg.CFG_CARD_UPPER_THRESHOLD) ∧
    (validateVerdict cfg peak = .FailEmpty ↔ peak < cfg.CFG_CARD_THRESHOLD) ∧
    (validateVerdict cfg peak = .FailDouble ↔ cfg.CFG_CARD_UPPER_THRESHOLD < peak) ∧
    (∀ s : Sys, s.cfg = cfg → s.maxPeakInWindow = peak →
       validateVerdict cfg peak = .Pass →
       validateResult s = (s, [Event.evtPass peak])) := by
  refine ⟨?_, ?_, ?_, ?_⟩
  · unfold validateVerdict
    split_ifs with h1 h2 <;> simp <;> omega
  · unfold validateVerdict
    split_ifs with h1 h2 <;> simp <;> omega
  · unfold validateVerdict
    split_ifs with h1 h2 <;> simp <;> omega
  · intro s hcfg hpeak hpass
    unfold validateVerdict at hpass
    split_ifs at hpass with h1
    unfold validateResult
    rw [hcfg, hpeak, if_pos h1]

/-- C2 witness: at the boot configuration (low = 150, high = 800) both
bounds are inclusive: peaks 150 and 800 are classified Pass. -/
theorem C2_validation_total_inclusive_witness :
    validateVerdict bootConfig 150 = .Pass ∧
    validateVerdict bootConfig 800 = .Pass ∧
    validateResult { bootSys with maxPeakInWindow := 150 } =
      ({ bootSys with maxPeakInWindow := 150 }, [Event.evtPass 150]) :=
  ⟨((C2_validation_total_inclusive bootConfig 150 (by decide)).1).mpr (by decide),
   ((C2_validation_total_inclusive bootConfig 800 (by decide)).1).mpr (by decide),
   (C2_validation_total_inclusive bootConfig 150 (by decide)).2.2.2
     { bootSys with maxPeakInWindow := 150 } rfl rfl
     (((C2_validation_total_inclusive bootConfig 150 (by decide)).1).mpr (by decide))⟩

/-- C7: `SET_THR:<n>` updates the lower card threshold exactly when
`0 < n ≤ 1023`, in which case the confirmation message is emitted; for any
other `n` the command leaves the whole state unchanged and emits nothing. -/
theorem C7_set_thr_range (n : Int) (now : Nat) (s : Sys) :
    (0 < n ∧ n ≤ 1023 →
       processCommand (.setThr n) now s =
         ({ s with cfg := { s.cfg with CFG_CARD_THRESHOLD := n } },
          [Event.msgThresholdSet n])) ∧
    (¬(0 < n ∧ n ≤ 1023) → processCommand (.setThr n) now s = (s, [])) := by
  constructor <;> intro h <;> simp [processCommand, h]

/-- C7 witness: `SET_THR:500` is accepted with a confirmation;
`SET_THR:2000` (the spec's out-of-range scenario) leaves the state
untouched and emits nothing. -/
theorem C7_set_thr_range_witness :
    processCommand (.setThr 500) 0 bootSys =
      ({ bootSys with cfg := { bootSys.cfg with CFG_CARD_THRESHOLD := 500 } },
       [Event.msgThresholdSet 500]) ∧
    processCommand (.setThr 2000) 0 bootSys = (bootSys, []) :=
  ⟨(C7_set_thr_range 500 0 bootSys).1 (by decide),
   (C7_set_thr_range 2000 0 bootSys).2 (by decide)⟩

/-- C6 counterexample: from the boot defaults (low = 150, high = 800) the
single accepted command `SET_THR:900` produces a state whose lower
threshold 900 exceeds its upper threshold 800, so accepted threshold
writes do not preserve `cardThresholdLow ≤ cardThresholdHigh`. -/
theorem C6_counterexample :
    (runCmds [(0, .setThr 900)] bootSys).cfg.CFG_CARD_UPPER_THRESHOLD <
      (runCmds [(0, .setThr 900)] bootSys).cfg.CFG_CARD_THRESHOLD := by decide

lemma processCommand_thresholdsInRange (c : Cmd) (t : Nat) (s : Sys)
    (h : thresholdsInRange s) : thresholdsInRange (processCommand c t s).1 := by
  unfold thresholdsInRange at h ⊢
  cases c <;> simp only [processCommand, resetSystem] <;> (try split_ifs) <;>
    simp_all

lemma runCmds_thresholdsInRange (cmds : List (Nat × Cmd)) (s : Sys)
    (h : thresholdsInRange s) : thresholdsInRange (runCmds cmds s) := by
  induction cmds generalizing s with
  | nil => exact h
  | cons p rest ih =>
      obtain ⟨t, c⟩ := p
      exact ih _ (processCommand_thresholdsInRange c t s h)

/-- C6 amended: each accepted `SET_THR`/`SET_THR_UPPER` write is
range-validated individually, so starting from the boot defaults every
command sequence preserves `0 < cardThresholdLow ≤ 1023` and
`0 < cardThresholdHigh ≤ 1023`; the cross-field relation
`cardThresholdLow ≤ cardThresholdHigh` is not enforced (an accepted
`SET_THR:900` from the defaults yields low = 900 > high = 800). -/
theorem C6_amended_thresholds_in_range (cmds : List (Nat × Cmd)) :
    thresholdsInRange (runCmds cmds bootSys) :=
  runCmds_thresholdsInRange cmds bootSys (by decide)

/-- C4 counterexample: with the boot configuration (`CFG_FLOOR_VALUE` =
100), a tick whose conditioned reading 60 lies inside the absolute band
[50, 1000] but below the configured floor trips nothing and emits nothing:
the sensor-health check never consults the configured floor. -/
theorem C4_counterexample :
    bootSys.cfg.CFG_FLOOR_VALUE = 100 ∧
    bootSys.cfg.CFG_SYSTEM_OVERRIDE = false ∧
    bootSys.machineStopActive = false ∧
    (tick ⟨0, 60, true, none⟩ bootSys).1.machineStopActive = false ∧
    (tick ⟨0, 60, true, none⟩ bootSys).2 = [] := by decide

/-- C4 amended: on a not-yet-tripped state the sensor-health check trips
the interlock exactly when the conditioned reading falls outside the
absolute band [50, 1000], emitting `ERR:SENSOR_OUT_OF_RANGE`; the
configured floor value takes no part in the decision. -/
theorem C4_amended_range_only (sv : Int) (f : Int) (s : Sys)
    (hstop : s.machineStopActive = false) :
    ((rangeCheck sv s).1.machineStopActive = true ↔ (sv < 50 ∨ sv > 1000)) ∧
    ((rangeCheck sv s).2 = [Event.errSensorOutOfRange] ↔ (sv < 50 ∨ sv > 1000)) ∧
    (rangeCheck sv (withFloor f s)).1.machineStopActive =
      (rangeCheck sv s).1.machineStopActive := by
  unfold rangeCheck triggerStop withFloor
  split_ifs with h1 <;> simp_all

/-- C4 amended witness: reading 30 (outside the band) trips; reading 60
(inside the band, below the boot floor 100) does not. -/
theorem C4_amended_range_only_witness :
    (rangeCheck 30 bootSys).1.machineStopActive = true ∧
    (rangeCheck 60 bootSys).1.machineStopActive = false :=
  ⟨((C4_amended_range_only 30 0 bootSys rfl).1).mpr (by decide),
   Bool.eq_false_iff.mpr
     ((not_congr (C4_amended_range_only 60 0 bootSys rfl).1).mpr (by decide))⟩

/-! ### Stage lemmas: which fields each loop stage can touch -/

lemma watchdogCheck_stopped (now : Nat) (s : Sys)
    (h : s.machineStopActive = true) : watchdogCheck now s = (s, []) := by
  unfold watchdogCheck; split_ifs <;> simp_all

lemma rangeCheck_stopped (sv : Int) (s : Sys)
    (h : s.machineStopActive = true) : rangeCheck sv s = (s, []) := by
  unfold rangeCheck; split_ifs <;> simp_all

lemma safetyChecks_stopped (now : Nat) (sv : Int) (s : Sys)
    (h : s.machineStopActive = true) : safetyChecks now sv s = (s, []) := by
  unfold safetyChecks
  dsimp only
  split_ifs with hov <;>
    simp [watchdogCheck_stopped now s h, rangeCheck_stopped sv s h]

lemma safetyChecks_stop_mono (now : Nat) (sv : Int) (s : Sys)
    (h : s.machineStopActive = true) :
    (safetyChecks now sv s).1.machineStopActive = true := by
  rw [safetyChecks_stopped now sv s h]; exact h

lemma debounceStep_cfg (t : Nat) (r : Bool) (s : Sys) :
    (debounceStep t r s).cfg = s.cfg := by
  unfold debounceStep; dsimp only; split_ifs <;> rfl

lemma debounceStep_currentState (t : Nat) (r : Bool) (s : Sys) :
    (debounceStep t r s).currentState = s.currentState := by
  unfold debounceStep; dsimp only; split_ifs <;> rfl

lemma debounceStep_machineStopActive (t : Nat) (r : Bool) (s : Sys) :
    (debounceStep t r s).machineStopActive = s.machineStopActive := by
  unfold debounceStep; dsimp only; split_ifs <;> rfl

lemma debounceStep_lastPingReceived (t : Nat) (r : Bool) (s : Sys) :
    (debounceStep t r s).lastPingReceived = s.lastPingReceived := by
  unfold debounceStep; dsimp only; split_ifs <;> rfl

lemma debounceStep_maxPeakInWindow (t : Nat) (r : Bool) (s : Sys) :
    (debounceStep t r s).maxPeakInWindow = s.maxPeakInWindow := by
  unfold debounceStep; dsimp only; split_ifs <;> rfl

lemma debounceStep_lastTelemetryTime (t : Nat) (r : Bool) (s : Sys) :
    (debounceStep t r s).lastTelemetryTime = s.lastTelemetryTime := by
  unfold debounceStep; dsimp only; split_ifs <;> rfl

lemma debounceStep_enableOut (t : Nat) (r : Bool) (s : Sys) :
    (debounceStep t r s).enableOut = s.enableOut := by
  unfold debounceStep; dsimp only; split_ifs <;> rfl

lemma validateResult_stop_mono (s : Sys) (h : s.machineStopActive = true) :
    (validateResult s).1.machineStopActive = true := by
  unfold validateResult; split_ifs <;> simp_all

lemma stateMachineStep_stop_mono (sv : Int) (s : Sys)
    (h : s.machineStopActive = true) :
    (stateMachineStep sv s).1.machineStopActive = true := by
  unfold stateMachineStep
  dsimp only
  cases hcs : s.currentState <;> dsimp only
  · split_ifs <;> simp_all
  · split_ifs <;>
      first
        | exact validateResult_stop_mono _ h
        | exact h
  · exact h

lemma processCommand_stop_mono (c : Cmd) (t : Nat) (s : Sys)
    (hc : c ≠ .resume) (h : s.machineStopActive = true) :
    (processCommand c t s).1.machineStopActive = true := by
  cases c <;> simp_all [processCommand] <;> split_ifs <;> simp_all

lemma telemetryStep_cfg (now : Nat) (sv : Int) (s : Sys) :
    (telemetryStep now sv s).1.cfg = s.cfg := by
  unfold telemetryStep; split_ifs <;> rfl

lemma telemetryStep_currentState (now : Nat) (sv : Int) (s : Sys) :
    (telemetryStep now sv s).1.currentState = s.currentState := by
  unfold telemetryStep; split_ifs <;> rfl

lemma telemetryStep_machineStopActive (now : Nat) (sv : Int) (s : Sys) :
    (telemetryStep now sv s).1.machineStopActive = s.machineStopActive := by
  unfold telemetryStep; split_ifs <;> rfl

lemma telemetryStep_envelopeState (now : Nat) (sv : Int) (s : Sys) :
    (telemetryStep now sv s).1.envelopeState = s.envelopeState := by
  unfold telemetryStep; split_ifs <;> rfl

lemma telemetryStep_lastPingReceived (now : Nat) (sv : Int) (s : Sys) :
    (telemetryStep now sv s).1.lastPingReceived = s.lastPingReceived := by
  unfold telemetryStep; split_ifs <;> rfl

lemma commandStage_stop_mono (c : Option Cmd) (t : Nat) (s : Sys)
    (hc : c ≠ some .resume) (h : s.machineStopActive = true) :
    (commandStage c t s).1.machineStopActive = true := by
  cases c with
  | none => exact h
  | some cc =>
      exact processCommand_stop_mono cc t s (fun hh => hc (by rw [hh])) h

lemma tick_stop_mono (i : TickInput) (s : Sys)
    (hc : i.cmd ≠ some .resume) (h : s.machineStopActive = true) :
    (tick i s).1.machineStopActive = true := by
  unfold tick
  dsimp only
  rw [telemetryStep_machineStopActive]
  exact commandStage_stop_mono i.cmd i.now _ hc
    (stateMachineStep_stop_mono i.sensorValue _
      (by rw [debounceStep_machineStopActive]
          exact safetyChecks_stop_mono i.now i.sensorValue s h))

lemma runTicks_stop_mono (inputs : List TickInput) (s : Sys)
    (hc : ∀ i ∈ inputs, i.cmd ≠ some .resume)
    (h : s.machineStopActive = true) :
    (runTicks inputs s).1.machineStopActive = true := by
  induction inputs generalizing s with
  | nil => exact h
  | cons i rest ih =>
      exact ih (tick i s).1 (fun j hj => hc j (List.mem_cons_of_mem i hj))
        (tick_stop_mono i s (hc i (List.mem_cons_self i rest)) h)

/-- C1: the interlock is monotone-sticky.  (a) Over any sequence of ticks
(arbitrary sensor readings, presence inputs, times and commands) containing
no RESUME, once `machineStopActive` is true it stays true.  (b) A tick that
processes a RESUME command ends with `machineStopActive = false` and
`currentState = STATE_IDLE`, from any starting state. -/
theorem C1_interlock_monotone_sticky :
    (∀ (inputs : List TickInput) (s : Sys),
       (∀ i ∈ inputs, i.cmd ≠ some Cmd.resume) →
       s.machineStopActive = true →
       (runTicks inputs s).1.machineStopActive = true) ∧
    (∀ (i : TickInput) (s : Sys), i.cmd = some Cmd.resume →
       (tick i s).1.machineStopActive = false ∧
       (tick i s).1.currentState = .STATE_IDLE) := by
  constructor
  · exact fun inputs s hc h => runTicks_stop_mono inputs s hc h
  · intro i s hcmd
    unfold tick
    dsimp only
    rw [telemetryStep_machineStopActive, telemetryStep_currentState, hcmd]
    simp [commandStage, processCommand, resetSystem]

/-- C1 witness: a tripped state stays tripped across a PING tick and a
command-free tick, and a RESUME tick clears it back to IDLE. -/
theorem C1_interlock_monotone_sticky_witness :
    (runTicks [⟨5, 500, true, some .ping⟩, ⟨6, 500, true, none⟩]
       { bootSys with machineStopActive := true,
                      currentState := .STATE_FAULT,
                      enableOut := false }).1.machineStopActive = true ∧
    ((tick ⟨7, 500, true, some .resume⟩
       { bootSys with machineStopActive := true,
                      currentState := .STATE_FAULT,
                      enableOut := false }).1.machineStopActive = false ∧
     (tick ⟨7, 500, true, some .resume⟩
       { bootSys with machineStopActive := true,
                      currentState := .STATE_FAULT,
                      enableOut := false }).1.currentState = .STATE_IDLE) :=
  ⟨C1_interlock_monotone_sticky.1 _ _ (by decide) rfl,
   C1_interlock_monotone_sticky.2 _ _ rfl⟩

/-! ### Watchdog lemmas -/

lemma watchdogCheck_not_stopped (now : Nat) (s : Sys)
    (h : s.machineStopActive = false) :
    watchdogCheck now s =
      if elapsedMs now s.lastPingReceived > WATCHDOG_TIMEOUT
      then triggerStop .errWatchdogTimeout s
      else (s, []) := by
  unfold watchdogCheck; split_ifs <;> simp_all

lemma errWatchdog_not_mem_rangeCheck (sv : Int) (s : Sys) :
    Event.errWatchdogTimeout ∉ (rangeCheck sv s).2 := by
  unfold rangeCheck triggerStop; split_ifs <;> simp

lemma errWatchdog_not_mem_validateResult (s : Sys) :
    Event.errWatchdogTimeout ∉ (validateResult s).2 := by
  unfold validateResult; split_ifs <;> simp

lemma errWatchdog_not_mem_stateMachineStep (sv : Int) (s : Sys) :
    Event.errWatchdogTimeout ∉ (stateMachineStep sv s).2 := by
  unfold stateMachineStep
  dsimp only
  cases hcs : s.currentState <;> dsimp only <;> (try split_ifs) <;>
    first
      | exact errWatchdog_not_mem_validateResult _
      | simp

lemma errWatchdog_not_mem_processCommand (c : Cmd) (t : Nat) (s : Sys) :
    Event.errWatchdogTimeout ∉ (processCommand c t s).2 := by
  cases c <;> simp only [processCommand, resetSystem] <;> (try split_ifs) <;> simp

lemma errWatchdog_not_mem_commandStage (c : Option Cmd) (t : Nat) (s : Sys) :
    Event.errWatchdogTimeout ∉ (commandStage c t s).2 := by
  cases c with
  | none => simp [commandStage]
  | some cc => exact errWatchdog_not_mem_processCommand cc t s

lemma errWatchdog_not_mem_telemetryStep (now : Nat) (sv : Int) (s : Sys) :
    Event.errWatchdogTimeout ∉ (telemetryStep now sv s).2 := by
  unfold telemetryStep; split_ifs <;> simp

lemma safetyChecks_watchdog_mem (now : Nat) (sv : Int) (s : Sys)
    (hov : s.cfg.CFG_SYSTEM_OVERRIDE = false)
    (h : s.machineStopActive = false) :
    (Event.errWatchdogTimeout ∈ (safetyChecks now sv s).2 ↔
      elapsedMs now s.lastPingReceived > WATCHDOG_TIMEOUT) := by
  unfold safetyChecks
  dsimp only
  rw [if_pos (by simp [hov]), watchdogCheck_not_stopped now s h]
  by_cases hw : elapsedMs now s.lastPingReceived > WATCHDOG_TIMEOUT
  · rw [if_pos hw]
    simp [triggerStop, hw]
  · rw [if_neg hw]
    simp only [List.nil_append]
    exact iff_of_false (errWatchdog_not_mem_rangeCheck sv s) hw

/-- C3: on every tick whose state has override off and the interlock not
yet tripped, the host watchdog fires exactly when the elapsed time since
the last received PING (at boot: since time 0) exceeds the 2000 ms
timeout: the tick emits `ERR:WATCHDOG_TIMEOUT` iff elapsed > 2000, and the
watchdog check latches the stop iff elapsed > 2000 (the comparison is
strict, so elapsed = 2000 does not trip).  A PING refreshes the liveness
timestamp to the processing time, and after a PING at time `now` no
watchdog check within the following 2000 ms can trip. -/
theorem C3_watchdog_iff (i : TickInput) (s : Sys)
    (hov : s.cfg.CFG_SYSTEM_OVERRIDE = false)
    (hstop : s.machineStopActive = false)
    (hwrap : i.now - s.lastPingReceived < 4294967296) :
    (Event.errWatchdogTimeout ∈ (tick i s).2 ↔
       i.now - s.lastPingReceived > 2000) ∧
    ((watchdogCheck i.now s).1.machineStopActive = true ↔
       i.now - s.lastPingReceived > 2000) ∧
    ((processCommand .ping i.now s).1 = { s with lastPingReceived := i.now }) ∧
    (∀ later : Nat, later - i.now ≤ 2000 →
       (watchdogCheck later (processCommand .ping i.now s).1).1.machineStopActive
         = false) := by
  have helapsed : elapsedMs i.now s.lastPingReceived =
      i.now - s.lastPingReceived := Nat.mod_eq_of_lt hwrap
  refine ⟨?_, ?_, rfl, ?_⟩
  · unfold tick
    dsimp only
    simp only [List.mem_append]
    rw [← helapsed]
    constructor
    · rintro (((ha | hb) | hc) | hd)
      · exact (safetyChecks_watchdog_mem i.now i.sensorValue s hov hstop).mp ha
      · exact absurd hb (errWatchdog_not_mem_stateMachineStep i.sensorValue _)
      · exact absurd hc (errWatchdog_not_mem_commandStage i.cmd i.now _)
      · exact absurd hd (errWatchdog_not_mem_telemetryStep i.now i.sensorValue _)
    · intro hgt
      exact Or.inl (Or.inl (Or.inl
        ((safetyChecks_watchdog_mem i.now i.sensorValue s hov hstop).mpr hgt)))
  · rw [watchdogCheck_not_stopped i.now s hstop, ← helapsed]
    unfold WATCHDOG_TIMEOUT
    by_cases hw : elapsedMs i.now s.lastPingReceived > 2000
    · rw [if_pos hw]
      simp [triggerStop, hw]
    · rw [if_neg hw]
      simp [hstop, hw]
  · intro later hlater
    have hping : (processCommand Cmd.ping i.now s).1.lastPingReceived = i.now :=
      rfl
    have hstop2 : (processCommand Cmd.ping i.now s).1.machineStopActive = false :=
      hstop
    rw [watchdogCheck_not_stopped later _ hstop2, hping]
    unfold WATCHDOG_TIMEOUT
    have hle : elapsedMs later i.now ≤ 2000 := by
      unfold elapsedMs
      calc (later - i.now) % 4294967296 ≤ later - i.now := Nat.mod_le _ _
        _ ≤ 2000 := hlater
    rw [if_neg (by omega)]
    exact hstop2

/-- C3 witness: from boot (last PING at 0), a tick at 2001 ms emits the
watchdog error; a PING processed at 1999 ms (timeout minus one) prevents
the watchdog check at 2001 ms from tripping. -/
theorem C3_watchdog_iff_witness :
    (Event.errWatchdogTimeout ∈ (tick ⟨2001, 500, true, none⟩ bootSys).2) ∧
    (watchdogCheck 2001
       (processCommand .ping 1999 bootSys).1).1.machineStopActive = false :=
  ⟨(C3_watchdog_iff ⟨2001, 500, true, none⟩ bootSys rfl rfl
      (by decide)).1.mpr (by decide),
   (C3_watchdog_iff ⟨1999, 500, true, none⟩ bootSys rfl rfl
      (by decide)).2.2.2 2001 (by decide)⟩

/-! ### Override lemmas -/

lemma safetyChecks_override (now : Nat) (sv : Int) (s : Sys)
    (hov : s.cfg.CFG_SYSTEM_OVERRIDE = true) :
    safetyChecks now sv s = (s, []) := by
  unfold safetyChecks
  dsimp only
  rw [if_neg (by simp [hov])]

lemma debounceStep_stable (t : Nat) (r : Bool) (s : Sys)
    (hfl : s.lastFlickerableState = r) (henv : s.envelopeState = r) :
    debounceStep t r s = s := by
  unfold debounceStep
  dsimp only
  split_ifs <;> simp_all

lemma validateResult_override_fail (s : Sys)
    (hov : s.cfg.CFG_SYSTEM_OVERRIDE = true)
    (hfail : s.maxPeakInWindow < s.cfg.CFG_CARD_THRESHOLD ∨
             s.cfg.CFG_CARD_UPPER_THRESHOLD < s.maxPeakInWindow) :
    validateResult s = (s, [.evtPassOverride s.maxPeakInWindow]) := by
  have hng : ¬(s.maxPeakInWindow ≥ s.cfg.CFG_CARD_THRESHOLD ∧
      s.maxPeakInWindow ≤ s.cfg.CFG_CARD_UPPER_THRESHOLD) := by
    rcases hfail with h | h <;> intro hc <;> omega
  unfold validateResult
  rw [if_neg hng]
  by_cases h2 : s.maxPeakInWindow < s.cfg.CFG_CARD_THRESHOLD
  · rw [if_pos h2, if_pos hov]
  · rw [if_neg h2, if_pos hov]

lemma stateMachineStep_override_fail (sv : Int) (s : Sys)
    (hov : s.cfg.CFG_SYSTEM_OVERRIDE = true)
    (hst : s.currentState = .STATE_MEASURING)
    (henv : s.envelopeState = true)
    (hfail : max s.maxPeakInWindow sv < s.cfg.CFG_CARD_THRESHOLD ∨
             s.cfg.CFG_CARD_UPPER_THRESHOLD < max s.maxPeakInWindow sv) :
    (stateMachineStep sv s).1.machineStopActive = s.machineStopActive ∧
    (stateMachineStep sv s).1.currentState = .STATE_IDLE ∧
    (stateMachineStep sv s).2 = [.evtPassOverride (max s.maxPeakInWindow sv)] := by
  unfold stateMachineStep
  rw [hst]
  dsimp only
  rw [if_pos (by simp [henv])]
  by_cases hpk : sv > s.maxPeakInWindow
  · have hmax : max s.maxPeakInWindow sv = sv := max_eq_right (le_of_lt hpk)
    rw [if_pos hpk]
    rw [validateResult_override_fail
      { s with maxPeakInWindow := sv, currentState := .STATE_MEASURING } hov
      (by rw [hmax] at hfail; exact hfail)]
    exact ⟨rfl, rfl, by rw [hmax]⟩
  · have hmax : max s.maxPeakInWindow sv = s.maxPeakInWindow :=
      max_eq_left (not_lt.mp hpk)
    rw [if_neg hpk]
    rw [validateResult_override_fail s hov
      (by rw [hmax] at hfail; exact hfail)]
    exact ⟨rfl, rfl, by rw [hmax]⟩

/-- C5: a fail verdict under active safety override is downgraded: when a
MEASURING window closes (stable presence HIGH, i.e. envelope absent) on a
peak outside the configured band while `CFG_SYSTEM_OVERRIDE` is set, the
tick reports `EVT:PASS_OVERRIDE` with the peak, the interlock is not
tripped (`machineStopActive` stays false), and the detection state returns
to `STATE_IDLE`, not `STATE_FAULT`. -/
theorem C5_override_downgrades_fail (i : TickInput) (s : Sys)
    (hov : s.cfg.CFG_SYSTEM_OVERRIDE = true)
    (hstop : s.machineStopActive = false)
    (hst : s.currentState = .STATE_MEASURING)
    (henv : s.envelopeState = true)
    (hfl : s.lastFlickerableState = true)
    (hrd : i.reading = true)
    (hcmd : i.cmd = none)
    (hfail : max s.maxPeakInWindow i.sensorValue < s.cfg.CFG_CARD_THRESHOLD ∨
             s.cfg.CFG_CARD_UPPER_THRESHOLD < max s.maxPeakInWindow i.sensorValue) :
    (tick i s).1.machineStopActive = false ∧
    (tick i s).1.currentState = .STATE_IDLE ∧
    Event.evtPassOverride (max s.maxPeakInWindow i.sensorValue) ∈ (tick i s).2 := by
  unfold tick
  dsimp only
  rw [safetyChecks_override i.now i.sensorValue s hov]
  dsimp only
  rw [hrd, debounceStep_stable i.now true s hfl henv]
  have hsm := stateMachineStep_override_fail i.sensorValue s hov hst henv hfail
  rw [hcmd]
  dsimp only [commandStage]
  refine ⟨?_, ?_, ?_⟩
  · rw [telemetryStep_machineStopActive, hsm.1]
    exact hstop
  · rw [telemetryStep_currentState, hsm.2.1]
  · simp only [List.mem_append]
    exact Or.inl (Or.inl (Or.inr (by rw [hsm.2.2]; exact List.mem_singleton.mpr rfl)))

/-- C5 witness: in MEASURING with peak 50 (below the boot low threshold
150) and override on, the closing tick reports `EVT:PASS_OVERRIDE:50`,
stays untripped and returns to IDLE. -/
theorem C5_override_downgrades_fail_witness :
    (tick ⟨10, 40, true, none⟩
       { bootSys with cfg := { bootConfig with CFG_SYSTEM_OVERRIDE := true },
                      currentState := .STATE_MEASURING,
                      maxPeakInWindow := 50 }).1.machineStopActive = false ∧
    (tick ⟨10, 40, true, none⟩
       { bootSys with cfg := { bootConfig with CFG_SYSTEM_OVERRIDE := true },
                      currentState := .STATE_MEASURING,
                      maxPeakInWindow := 50 }).1.currentState = .STATE_IDLE ∧
    Event.evtPassOverride 50 ∈
      (tick ⟨10, 40, true, none⟩
        { bootSys with cfg := { bootConfig with CFG_SYSTEM_OVERRIDE := true },
                       currentState := .STATE_MEASURING,
                       maxPeakInWindow := 50 }).2 := by
  have h := C5_override_downgrades_fail ⟨10, 40, true, none⟩
    { bootSys with cfg := { bootConfig with CFG_SYSTEM_OVERRIDE := true },
                   currentState := .STATE_MEASURING,
                   maxPeakInWindow := 50 }
    rfl rfl rfl rfl rfl rfl rfl (by decide)
  exact ⟨h.1, h.2.1, by have h3 := h.2.2; rwa [show max (50 : Int) 40 = 50 by decide] at h3⟩

lemma validateResult_override_fst (s : Sys)
    (hov : s.cfg.CFG_SYSTEM_OVERRIDE = true) : (validateResult s).1 = s := by
  unfold validateResult; split_ifs <;> simp_all

lemma stateMachineStep_override (sv : Int) (s : Sys)
    (hov : s.cfg.CFG_SYSTEM_OVERRIDE = true) :
    (stateMachineStep sv s).1.machineStopActive = s.machineStopActive ∧
    (stateMachineStep sv s).1.cfg = s.cfg := by
  unfold stateMachineStep
  dsimp only
  cases hcs : s.currentState <;> dsimp only
  · split_ifs <;> exact ⟨rfl, rfl⟩
  · by_cases hp : ¬(s.envelopeState = false)
    · rw [if_pos hp]
      by_cases hpk : sv > s.maxPeakInWindow
      · rw [if_pos hpk]
        rw [validateResult_override_fst
          { s with maxPeakInWindow := sv, currentState := .STATE_MEASURING } hov]
        exact ⟨rfl, rfl⟩
      · rw [if_neg hpk]
        rw [validateResult_override_fst s hov]
        exact ⟨rfl, rfl⟩
    · rw [if_neg hp]
      by_cases hpk : sv > s.maxPeakInWindow
      · rw [if_pos hpk]; exact ⟨rfl, rfl⟩
      · rw [if_neg hpk]; exact ⟨rfl, rfl⟩
  · exact ⟨rfl, rfl⟩

lemma processCommand_override_keep (c : Cmd) (t : Nat) (s : Sys)
    (hov : s.cfg.CFG_SYSTEM_OVERRIDE = true)
    (hstop : s.machineStopActive = false)
    (hc : ∀ n, c = .setOverride n → n = 1) :
    (processCommand c t s).1.cfg.CFG_SYSTEM_OVERRIDE = true ∧
    (processCommand c t s).1.machineStopActive = false := by
  cases c with
  | ping => exact ⟨hov, hstop⟩
  | resume => exact ⟨hov, rfl⟩
  | setThr n => simp only [processCommand]; split_ifs <;> exact ⟨hov, hstop⟩
  | setThrUpper n => simp only [processCommand]; split_ifs <;> exact ⟨hov, hstop⟩
  | setFloor n => simp only [processCommand]; split_ifs <;> exact ⟨hov, hstop⟩
  | setReverse n => exact ⟨hov, hstop⟩
  | setOverride n =>
      have hn : n = 1 := hc n rfl
      subst hn
      exact ⟨by simp [processCommand], hstop⟩
  | unknown => exact ⟨hov, hstop⟩

lemma tick_override_safe (i : TickInput) (s : Sys)
    (hov : s.cfg.CFG_SYSTEM_OVERRIDE = true)
    (hstop : s.machineStopActive = false)
    (hc : ∀ n, i.cmd = some (.setOverride n) → n = 1) :
    (tick i s).1.cfg.CFG_SYSTEM_OVERRIDE = true ∧
    (tick i s).1.machineStopActive = false := by
  unfold tick
  dsimp only
  rw [safetyChecks_override i.now i.sensorValue s hov]
  dsimp only
  have hov2 : (debounceStep i.now i.reading s).cfg.CFG_SYSTEM_OVERRIDE = true := by
    rw [debounceStep_cfg]; exact hov
  have hstop2 : (debounceStep i.now i.reading s).machineStopActive = false := by
    rw [debounceStep_machineStopActive]; exact hstop
  have hsm := stateMachineStep_override i.sensorValue _ hov2
  have hov3 : (stateMachineStep i.sensorValue
      (debounceStep i.now i.reading s)).1.cfg.CFG_SYSTEM_OVERRIDE = true := by
    rw [hsm.2]; exact hov2
  have hstop3 : (stateMachineStep i.sensorValue
      (debounceStep i.now i.reading s)).1.machineStopActive = false := by
    rw [hsm.1]; exact hstop2
  have hcs : (commandStage i.cmd i.now (stateMachineStep i.sensorValue
      (debounceStep i.now i.reading s)).1).1.cfg.CFG_SYSTEM_OVERRIDE = true ∧
      (commandStage i.cmd i.now (stateMachineStep i.sensorValue
      (debounceStep i.now i.reading s)).1).1.machineStopActive = false := by
    cases hc2 : i.cmd with
    | none => exact ⟨hov3, hstop3⟩
    | some cc =>
        exact processCommand_override_keep cc i.now _ hov3 hstop3
          (fun n hn => hc n (by rw [hc2, hn]))
  exact ⟨by rw [telemetryStep_cfg]; exact hcs.1,
         by rw [telemetryStep_machineStopActive]; exact hcs.2⟩

/-- C9: while `CFG_SYSTEM_OVERRIDE` is held true, no tick can newly trip
the interlock from any source: the watchdog and sensor-range checks are
skipped entirely and validation failures are downgraded, so over any input
sequence whose commands never clear the override, `machineStopActive`
stays false if it was false. -/
theorem C9_override_blocks_all_trips (inputs : List TickInput) (s : Sys)
    (hov : s.cfg.CFG_SYSTEM_OVERRIDE = true)
    (hstop : s.machineStopActive = false)
    (hc : ∀ i ∈ inputs, ∀ n : Int, i.cmd = some (.setOverride n) → n = 1) :
    (runTicks inputs s).1.machineStopActive = false := by
  induction inputs generalizing s with
  | nil => exact hstop
  | cons i rest ih =>
      have h1 := tick_override_safe i s hov hstop
        (hc i (List.mem_cons_self i rest))
      exact ih (tick i s).1 h1.1 h1.2
        (fun j hj => hc j (List.mem_cons_of_mem i hj))

/-- C9 witness: with override on, a tick at 5000 ms with no PING ever
received and a conditioned reading of 10 (outside the absolute band) — a
tick that would otherwise trip twice over — leaves the interlock clear. -/
theorem C9_override_blocks_all_trips_witness :
    (runTicks [⟨5000, 10, true, none⟩]
      { bootSys with
          cfg := { bootConfig with CFG_SYSTEM_OVERRIDE := true } }).1.machineStopActive
      = false :=
  C9_override_blocks_all_trips _ _ rfl rfl
    (fun i hi n hn => by
      simp only [List.mem_singleton] at hi
      subst hi
      simp at hn)

/-! ### Debounce lemmas -/

lemma runDebounce_singleton (t : Nat) (r : Bool) (s : Sys) :
    runDebounce [(t, r)] s = debounceStep t r s := rfl

lemma runDebounce_append (l1 l2 : List (Nat × Bool)) (s : Sys) :
    runDebounce (l1 ++ l2) s = runDebounce l2 (runDebounce l1 s) := by
  induction l1 generalizing s with
  | nil => rfl
  | cons p rest ih =>
      obtain ⟨t, r⟩ := p
      exact ih (debounceStep t r s)

lemma debounceStep_lastFlickerableState (t : Nat) (r : Bool) (s : Sys) :
    (debounceStep t r s).lastFlickerableState = r := by
  unfold debounceStep
  dsimp only
  split_ifs <;> simp_all

lemma debounceStep_lastDebounceTime (t : Nat) (r : Bool) (s : Sys) :
    (debounceStep t r s).lastDebounceTime =
      if r = s.lastFlickerableState then s.lastDebounceTime else t := by
  unfold debounceStep
  dsimp only
  split_ifs <;> simp_all

lemma debounceStep_envelopeState_eq (t : Nat) (r : Bool) (s : Sys) :
    (debounceStep t r s).envelopeState =
      if elapsedMs t (if r = s.lastFlickerableState then s.lastDebounceTime
                      else t) > DEBOUNCE_DELAY
      then r else s.envelopeState := by
  unfold debounceStep
  dsimp only
  split_ifs <;> simp_all

lemma debInv_run (tr : List (Nat × Bool)) (s : Sys) :
    List.Pairwise (fun a b => a.1 ≤ b.1) tr →
    ∀ p ∈ tr, (runDebounce tr s).lastDebounceTime < p.1 →
      p.2 = (runDebounce tr s).lastFlickerableState := by
  induction tr using List.reverseRecOn with
  | nil =>
      intro _ p hp
      exact absurd hp (List.not_mem_nil p)
  | append_singleton rest x ih =>
      obtain ⟨t, r⟩ := x
      intro hmono p hp hlt
      rw [List.pairwise_append] at hmono
      obtain ⟨hp1, _, hp3⟩ := hmono
      rw [runDebounce_append, runDebounce_singleton] at hlt ⊢
      have hflick := debounceStep_lastFlickerableState t r (runDebounce rest s)
      have hldt := debounceStep_lastDebounceTime t r (runDebounce rest s)
      rcases List.mem_append.mp hp with hpr | hpx
      · by_cases hr : r = (runDebounce rest s).lastFlickerableState
        · rw [hldt, if_pos hr] at hlt
          rw [hflick]
          exact (ih hp1 p hpr hlt).trans hr.symm
        · exfalso
          rw [hldt, if_neg hr] at hlt
          exact absurd hlt
            (not_lt.mpr (hp3 p hpr (t, r) (List.mem_singleton.mpr rfl)))
      · have hpx2 := List.mem_singleton.mp hpx
        subst hpx2
        rw [hflick]

/-- C8: the debounced stable presence state changes only after the raw
signal has held a constant value for more than the debounce window: over
any time-monotone raw trace, if the final step at time `t` with raw value
`r` changes `envelopeState`, then the new stable state equals `r`, the
last raw change happened more than `DEBOUNCE_DELAY` (10 ms) before `t`,
and every earlier sample within the closed window `[t - 10, t]` already
read `r` — hence no flicker shorter than the window ever changes the
stable state. -/
theorem C8_debounce_window (tr : List (Nat × Bool)) (t : Nat) (r : Bool)
    (s0 : Sys)
    (hmono : List.Pairwise (fun a b => a.1 ≤ b.1) (tr ++ [(t, r)]))
    (hchange : (debounceStep t r (runDebounce tr s0)).envelopeState ≠
               (runDebounce tr s0).envelopeState) :
    (debounceStep t r (runDebounce tr s0)).envelopeState = r ∧
    (runDebounce tr s0).lastDebounceTime + DEBOUNCE_DELAY < t ∧
    (∀ p ∈ tr, t ≤ p.1 + DEBOUNCE_DELAY → p.2 = r) := by
  rw [List.pairwise_append] at hmono
  obtain ⟨hm1, _, _⟩ := hmono
  have henv := debounceStep_envelopeState_eq t r (runDebounce tr s0)
  by_cases hr : r = (runDebounce tr s0).lastFlickerableState
  · rw [if_pos hr] at henv
    by_cases hcond : elapsedMs t (runDebounce tr s0).lastDebounceTime >
        DEBOUNCE_DELAY
    · have hgap : (runDebounce tr s0).lastDebounceTime + DEBOUNCE_DELAY < t := by
        have hle : elapsedMs t (runDebounce tr s0).lastDebounceTime ≤
            t - (runDebounce tr s0).lastDebounceTime := Nat.mod_le _ _
        unfold DEBOUNCE_DELAY at hcond ⊢
        omega
      refine ⟨by rw [henv, if_pos hcond], hgap, ?_⟩
      intro p hp hwin
      have hlt : (runDebounce tr s0).lastDebounceTime < p.1 := by
        unfold DEBOUNCE_DELAY at hgap hwin
        omega
      exact (debInv_run tr s0 hm1 p hp hlt).trans hr.symm
    · exfalso
      rw [henv, if_neg hcond] at hchange
      exact hchange rfl
  · exfalso
    rw [if_neg hr] at henv
    have hz : elapsedMs t t = 0 := by
      unfold elapsedMs
      simp
    rw [hz] at henv
    rw [henv] at hchange
    norm_num [DEBOUNCE_DELAY] at hchange

/-- C8 witness: raw goes LOW at 15 ms; at 30 ms (held > 10 ms) the stable
state changes to LOW, and every sample in the window [20, 30] read LOW. -/
theorem C8_debounce_window_witness :
    (debounceStep 30 false
       (runDebounce [(0, true), (15, false)] bootSys)).envelopeState = false ∧
    (runDebounce [(0, true), (15, false)] bootSys).lastDebounceTime +
      DEBOUNCE_DELAY < 30 ∧
    (∀ p ∈ [((0 : Nat), true), ((15 : Nat), false)],
       30 ≤ p.1 + DEBOUNCE_DELAY → p.2 = false) :=
  C8_debounce_window [(0, true), (15, false)] 30 false bootSys
    (by decide) (by decide)

/-! ### Floor-noninterference lemmas -/

lemma withFloor_withFloor (a b : Int) (s : Sys) :
    withFloor a (withFloor b s) = withFloor a s := rfl

lemma eraseFloor_withFloor (g : Int) (s : Sys) :
    eraseFloor (withFloor g s) = eraseFloor s := rfl

lemma obsEvents_append (l1 l2 : List Event) :
    obsEvents (l1 ++ l2) = obsEvents l1 ++ obsEvents l2 := by
  unfold obsEvents
  exact List.filter_append l1 l2

lemma watchdogCheck_withFloor (now : Nat) (f : Int) (s : Sys) :
    watchdogCheck now (withFloor f s) =
      (withFloor f (watchdogCheck now s).1, (watchdogCheck now s).2) := by
  obtain ⟨⟨f0, thr, thru, rev, ov⟩, env, fl, ldt, cs, ltt, lpr, mpk, msa, eo⟩ := s
  unfold watchdogCheck triggerStop withFloor
  dsimp only
  split_ifs <;> rfl

lemma rangeCheck_withFloor (sv : Int) (f : Int) (s : Sys) :
    rangeCheck sv (withFloor f s) =
      (withFloor f (rangeCheck sv s).1, (rangeCheck sv s).2) := by
  obtain ⟨⟨f0, thr, thru, rev, ov⟩, env, fl, ldt, cs, ltt, lpr, mpk, msa, eo⟩ := s
  unfold rangeCheck triggerStop withFloor
  dsimp only
  split_ifs <;> rfl

lemma safetyChecks_withFloor (now : Nat) (sv : Int) (f : Int) (s : Sys) :
    safetyChecks now sv (withFloor f s) =
      (withFloor f (safetyChecks now sv s).1, (safetyChecks now sv s).2) := by
  unfold safetyChecks
  dsimp only
  by_cases hov : s.cfg.CFG_SYSTEM_OVERRIDE = true
  · rw [if_neg (by exact fun hc => hc hov), if_neg (by exact fun hc => hc hov)]
  · rw [if_pos (by exact hov), if_pos (by exact hov)]
    rw [watchdogCheck_withFloor]
    dsimp only
    rw [rangeCheck_withFloor]

lemma debounceStep_withFloor (t : Nat) (r : Bool) (f : Int) (s : Sys) :
    debounceStep t r (withFloor f s) = withFloor f (debounceStep t r s) := by
  obtain ⟨⟨f0, thr, thru, rev, ov⟩, env, fl, ldt, cs, ltt, lpr, mpk, msa, eo⟩ := s
  unfold debounceStep withFloor
  dsimp only
  split_ifs <;> rfl

lemma stateMachineStep_withFloor (sv : Int) (f : Int) (s : Sys) :
    stateMachineStep sv (withFloor f s) =
      (withFloor f (stateMachineStep sv s).1, (stateMachineStep sv s).2) := by
  obtain ⟨⟨f0, thr, thru, rev, ov⟩, env, fl, ldt, cs, ltt, lpr, mpk, msa, eo⟩ := s
  unfold stateMachineStep validateResult withFloor
  dsimp only
  cases cs <;> dsimp only <;> split_ifs <;> rfl

lemma telemetryStep_withFloor (now : Nat) (sv : Int) (f : Int) (s : Sys) :
    telemetryStep now sv (withFloor f s) =
      (withFloor f (telemetryStep now sv s).1, (telemetryStep now sv s).2) := by
  obtain ⟨⟨f0, thr, thru, rev, ov⟩, env, fl, ldt, cs, ltt, lpr, mpk, msa, eo⟩ := s
  unfold telemetryStep withFloor
  dsimp only
  split_ifs <;> rfl

lemma withFloor_self (s : Sys) : withFloor s.cfg.CFG_FLOOR_VALUE s = s := rfl

lemma processCommand_withFloor_ex (c : Cmd) (t : Nat) (f : Int) (s : Sys) :
    ∃ g : Int, (processCommand c t (withFloor f s)).1 =
        withFloor g (processCommand c t s).1 ∧
      (processCommand c t (withFloor f s)).2 = (processCommand c t s).2 := by
  obtain ⟨⟨f0, thr, thru, rev, ov⟩, env, fl, ldt, cs, ltt, lpr, mpk, msa, eo⟩ := s
  cases c
  case setFloor n =>
      by_cases hn : n ≥ 0 ∧ n ≤ 1023
      · refine ⟨n, ?_, ?_⟩ <;>
          simp only [processCommand, withFloor] <;> rw [if_pos hn, if_pos hn]
      · refine ⟨f, ?_, ?_⟩ <;>
          simp only [processCommand, withFloor] <;> rw [if_neg hn, if_neg hn]
  all_goals
    refine ⟨f, ?_, ?_⟩ <;>
      simp only [processCommand, resetSystem, withFloor] <;>
      (try split_ifs) <;> rfl

lemma commandStage_floorOnly_state (c : Option Cmd) (t : Nat) (s : Sys)
    (hc : isFloorCmd c = true) :
    ∃ g : Int, (commandStage c t s).1 = withFloor g s ∧
      obsEvents (commandStage c t s).2 = [] := by
  cases c with
  | none => exact ⟨s.cfg.CFG_FLOOR_VALUE, (withFloor_self s).symm, rfl⟩
  | some cc =>
      cases cc
      case ping => simp [isFloorCmd] at hc
      case resume => simp [isFloorCmd] at hc
      case setThr n => simp [isFloorCmd] at hc
      case setThrUpper n => simp [isFloorCmd] at hc
      case setReverse n => simp [isFloorCmd] at hc
      case setOverride n => simp [isFloorCmd] at hc
      case unknown => simp [isFloorCmd] at hc
      case setFloor n =>
        by_cases hn : n ≥ 0 ∧ n ≤ 1023
        · refine ⟨n, ?_, ?_⟩
          · simp only [commandStage, processCommand, withFloor]
            rw [if_pos hn]
          · simp only [commandStage, processCommand]
            rw [if_pos hn]
            simp [obsEvents, isFloorMsg]
        · refine ⟨s.cfg.CFG_FLOOR_VALUE, ?_, ?_⟩
          · simp only [commandStage, processCommand]
            rw [if_neg hn, withFloor_self]
          · simp only [commandStage, processCommand]
            rw [if_neg hn]
            rfl

lemma commandStage_floor_equiv (c1 c2 : Option Cmd) (t : Nat) (f : Int)
    (s : Sys) (h : cmdEquiv c1 c2) :
    ∃ g : Int, (commandStage c2 t (withFloor f s)).1 =
        withFloor g (commandStage c1 t s).1 ∧
      obsEvents (commandStage c2 t (withFloor f s)).2 =
        obsEvents (commandStage c1 t s).2 := by
  rcases h with heq | ⟨h1, h2⟩
  · subst heq
    cases c1 with
    | none => exact ⟨f, rfl, rfl⟩
    | some cc =>
        obtain ⟨g, hg1, hg2⟩ := processCommand_withFloor_ex cc t f s
        exact ⟨g, hg1, congrArg obsEvents hg2⟩
  · obtain ⟨gR, hR1, hR2⟩ := commandStage_floorOnly_state c1 t s h1
    obtain ⟨gL, hL1, hL2⟩ := commandStage_floorOnly_state c2 t (withFloor f s) h2
    refine ⟨gL, ?_, by rw [hL2, hR2]⟩
    rw [hL1, hR1]
    rfl

lemma tick_floor_noninterference (i1 i2 : TickInput) (f : Int) (s : Sys)
    (hi : inputEquiv i1 i2) :
    eraseFloor (tick i2 (withFloor f s)).1 = eraseFloor (tick i1 s).1 ∧
    obsEvents (tick i2 (withFloor f s)).2 = obsEvents (tick i1 s).2 := by
  obtain ⟨hnow, hsv, hrd, hcmd⟩ := hi
  unfold tick
  dsimp only
  rw [← hnow, ← hsv, ← hrd]
  rw [safetyChecks_withFloor]
  dsimp only
  rw [debounceStep_withFloor, stateMachineStep_withFloor]
  dsimp only
  obtain ⟨g, hg1, hg2⟩ := commandStage_floor_equiv i1.cmd i2.cmd i1.now f
    (stateMachineStep i1.sensorValue
      (debounceStep i1.now i1.reading (safetyChecks i1.now i1.sensorValue s).1)).1
    hcmd
  rw [hg1, telemetryStep_withFloor]
  dsimp only
  constructor
  · exact eraseFloor_withFloor g _
  · simp only [obsEvents_append, hg2]

/-- C10: the configured floor value influences nothing but its own
confirmation message.  For any two input sequences that agree except in
`SET_FLOOR` commands, and any two starting states that agree except in
`CFG_FLOOR_VALUE`, the two runs produce states that again agree except in
`CFG_FLOOR_VALUE` (in particular identical trip decisions and detection
states) and identical event streams — telemetry included — once `SET_FLOOR`
confirmation messages are filtered out. -/
theorem C10_floor_noninterference (inputs1 inputs2 : List TickInput)
    (hin : List.Forall₂ inputEquiv inputs1 inputs2) :
    ∀ s1 s2 : Sys, eraseFloor s1 = eraseFloor s2 →
      eraseFloor (runTicks inputs1 s1).1 = eraseFloor (runTicks inputs2 s2).1 ∧
      obsEvents (runTicks inputs1 s1).2 = obsEvents (runTicks inputs2 s2).2 := by
  induction hin with
  | nil =>
      intro s1 s2 hs
      exact ⟨hs, rfl⟩
  | cons hab hrest ih =>
      intro s1 s2 hs
      rename_i a b l1 l2
      have hs2 : s2 = withFloor s2.cfg.CFG_FLOOR_VALUE s1 := by
        obtain ⟨⟨af0, athr, athru, arev, aov⟩,
          aenv, afl, aldt, acs, altt, alpr, ampk, amsa, aeo⟩ := s1
        obtain ⟨⟨bf0, bthr, bthru, brev, bov⟩,
          benv, bfl, bldt, bcs, bltt, blpr, bmpk, bmsa, beo⟩ := s2
        simp only [eraseFloor, withFloor, Sys.mk.injEq, Config.mk.injEq] at hs ⊢
        tauto
      have htick := tick_floor_noninterference a b s2.cfg.CFG_FLOOR_VALUE s1 hab
      rw [← hs2] at htick
      have hih := ih (tick a s1).1 (tick b s2).1 htick.1.symm
      constructor
      · exact hih.1
      · show obsEvents ((tick a s1).2 ++ (runTicks l1 (tick a s1).1).2) =
          obsEvents ((tick b s2).2 ++ (runTicks l2 (tick b s2).1).2)
        rw [obsEvents_append, obsEvents_append, htick.2, hih.2]

/-- C10 witness: a run issuing `SET_FLOOR:200` from the boot floor 100 and
a run issuing no command from floor 300 coincide on everything except the
floor itself and the `SET_FLOOR` confirmation. -/
theorem C10_floor_noninterference_witness :
    eraseFloor (runTicks [⟨0, 500, true, some (.setFloor 200)⟩] bootSys).1 =
      eraseFloor (runTicks [⟨0, 500, true, none⟩]
        (withFloor 300 bootSys)).1 ∧
    obsEvents (runTicks [⟨0, 500, true, some (.setFloor 200)⟩] bootSys).2 =
      obsEvents (runTicks [⟨0, 500, true, none⟩] (withFloor 300 bootSys)).2 :=
  C10_floor_noninterference _ _
    (List.Forall₂.cons (by decide) List.Forall₂.nil)
    bootSys (withFloor 300 bootSys) (by decide)

end CardDetection
